import Mathlib

/-!
Verification of the FOCUS-GROUP-GENERATOR core pipeline.

Shallow embedding of the prompt-to-transcript pipeline:
  src/app.py                       (provider table, recommendation, form gate)
  src/components/ai_providers.py   (AIProviderManager.generate_transcript)
  src/components/transcript_generator.py (post-processing, quality audit)

Python strings are modelled as Lean String; Python dicts whose key
presence matters are modelled with Option fields; a raised exception is
modelled as the error branch of Except.  UI output via st.error /
st.warning / st.write is modelled as an explicit message list.
-/

/-- Boolean prefix test on character lists (structural, kernel-computable). -/
def listIsPrefixOfB : List Char → List Char → Bool
  | [], _ => true
  | _ :: _, [] => false
  | a :: as, b :: bs => a == b && listIsPrefixOfB as bs

/-- Substring occurrence test on character lists. -/
def containsSub (needle : List Char) : List Char → Bool
  | [] => needle.isEmpty
  | c :: rest => listIsPrefixOfB needle (c :: rest) || containsSub needle rest

/-- Python `needle in hay` substring test (both arguments strings). -/
def pyIn (needle hay : String) : Bool :=
  containsSub needle.data hay.data

/-- Scanner for countWords: the flag records being inside a word. -/
def countWordsGo : List Char → Bool → Nat
  | [], _ => 0
  | c :: cs, inWord =>
    if c.isWhitespace then countWordsGo cs false
    else (if inWord then 0 else 1) + countWordsGo cs true

/-- Python `len(s.split())`: count of maximal nonempty whitespace-separated chunks. -/
def countWords (s : String) : Nat :=
  countWordsGo s.data false

/-- Python `s.strip()`: drop whitespace from both ends. -/
def pyStrip (s : String) : String :=
  String.mk (((s.data.dropWhile Char.isWhitespace).reverse.dropWhile
    Char.isWhitespace).reverse)

/-- Python `s.startswith(p)`. -/
def startsWithB (p s : String) : Bool :=
  listIsPrefixOfB p.data s.data

/-- Python `s.upper()` (ASCII letters, as in the marker tests of the code). -/
def strToUpper (s : String) : String :=
  String.mk (s.data.map Char.toUpper)

/-- Python `s.lower()` (ASCII letters). -/
def strToLower (s : String) : String :=
  String.mk (s.data.map Char.toLower)

/-- Python `s[:n]`: the first n characters. -/
def strTake (n : Nat) (s : String) : String :=
  String.mk (s.data.take n)

/-- Helper for commaFormat: insert a comma after every three characters of the
reversed digit list. -/
def insertCommas : List Char → List Char
  | a :: b :: c :: d :: rest => a :: b :: c :: ',' :: insertCommas (d :: rest)
  | l => l

/-- Python format spec `{n:,}`: decimal digits grouped in threes by commas. -/
def commaFormat (n : Nat) : String :=
  String.mk (insertCommas (toString n).data.reverse).reverse

/-- Python format spec `{n:02d}`: zero-padded to width two. -/
def pad2 (n : Nat) : String :=
  if n < 10 then "0" ++ toString n else toString n

/-- Helper for splitLines: accumulate the current line (reversed) while
scanning the character list. -/
def splitLinesGo : List Char → List Char → List String
  | [], cur => [String.mk cur.reverse]
  | c :: cs, cur =>
    if c = '\n' then String.mk cur.reverse :: splitLinesGo cs []
    else splitLinesGo cs (c :: cur)

/-- Python `s.split('\n')`. -/
def splitLines (s : String) : List String :=
  splitLinesGo s.data []

/-- Python `'\n'.join(lines)`. -/
def joinLines : List String → String
  | [] => ""
  | [l] => l
  | l :: rest => l ++ "\n" ++ joinLines rest

/-- Modelled from the spec: `components/utils.py` is imported by the sources
but is not present under src/.  The spec fixes the shape
`expectedWords = duration_minutes * WORDS_PER_MINUTE` for a fixed rate
constant; the concrete value of the constant is not pinned by any claim. -/
def WORDS_PER_MINUTE : Nat := 150

/-- Modelled from the spec: `calculate_word_count` from the missing
`components/utils.py`, per the spec formula
`expectedWords = duration_minutes * WORDS_PER_MINUTE`. -/
def calculate_word_count (duration : Nat) : Nat :=
  duration * WORDS_PER_MINUTE

/-- src/app.py lines 81-90: recommendation rule over the selected languages. -/
def get_recommended_provider (selected_languages : List String) : String :=
  if selected_languages.contains "Hindi" || selected_languages.contains "Hinglish" then
    "google"
  else if selected_languages.length == 1 && selected_languages.contains "French" then
    "mistral"
  else if selected_languages.length == 1 && selected_languages.contains "English" then
    "openai"
  else
    "openai"

/-- The five provider types of src/components/ai_providers.py; the type tag
stored by initialize_provider equals the provider name for all five. -/
inductive ProviderType where
  | openai
  | anthropic
  | google
  | cohere
  | mistral
deriving DecidableEq

/-- The provider identifier string of each provider type. -/
def ProviderType.name : ProviderType → String
  | .openai => "openai"
  | .anthropic => "anthropic"
  | .google => "google"
  | .cohere => "cohere"
  | .mistral => "mistral"

/-- The part of the form_data dict read by AIProviderManager.generate_transcript
and _simulate_transcript; an Option field models presence of the dict key. -/
structure GTFormData where
  duration : Option Nat
  topic : Option String
deriving DecidableEq

/-- UI output emitted through streamlit during generate_transcript, abstracted
to which message was emitted and the data it carries. -/
inductive UIMessage where
  | errorNotInitialized (provider : String)
  | writeMistralDebug
  | errorMistralInvalid
  | warningApiFallback
  | errorGenerate (provider : String) (msg : String)
deriving DecidableEq

/-- Behaviour of the underlying provider client call for one generation:
the call raises with a message, or the normalized text field is extracted
successfully, or (mistral response shape) the response is present but has no
nonempty choices list. -/
inductive ProviderOutcome where
  | raises (msg : String)
  | ok (text : String)
  | malformed
deriving DecidableEq

/-- src/components/ai_providers.py lines 148-151: the local fallback stub text
built by _simulate_transcript. -/
def simulate_text (topic : String) (duration : Nat) : String :=
  let estimated_words := calculate_word_count duration
  "[00:00] MODERATOR: Welcome to the focus group on " ++ topic ++
  ". This is a simulated transcript due to API failure.\n" ++
  "[00:05] PARTICIPANT 1: This is a placeholder response with about " ++
  toString (estimated_words / 10) ++ " words.\n" ++
  "[00:10] PARTICIPANT 2: Another response here, adding more context.\n" ++
  "... (Transcript continues for " ++ toString duration ++ " minutes with ~" ++
  toString estimated_words ++ " words total)"

/-- src/components/ai_providers.py lines 143-151: _simulate_transcript.  The
st.warning is emitted first; then form_data is read, raising KeyError when
the duration or topic key is absent (modelled as the error branch). -/
def _simulate_transcript (fd : GTFormData) : List UIMessage × Except String String :=
  ([UIMessage.warningApiFallback],
    match fd.duration with
    | none => Except.error "KeyError: duration"
    | some d =>
      match fd.topic with
      | none => Except.error "KeyError: topic"
      | some t => Except.ok (simulate_text t d))

/-- src/components/ai_providers.py lines 88-136: the body of the try block of
generate_transcript.  Computing max_tokens reads form_data, so a missing
duration key raises inside the try block; for the mistral shape a malformed
response triggers the in-try fallback (lines 130-134); for the other
providers extracting a field from a malformed response raises. -/
def generateTryBlock (ptype : ProviderType) (outcome : ProviderOutcome)
    (fd : GTFormData) : List UIMessage × Except String (Option String) :=
  match fd.duration with
  | none => ([], Except.error "KeyError: duration")
  | some _ =>
    match ptype, outcome with
    | _, .raises m => ([], Except.error m)
    | .mistral, .ok t => ([UIMessage.writeMistralDebug], Except.ok (some t))
    | .mistral, .malformed =>
      let (ms, r) := _simulate_transcript fd
      ([UIMessage.writeMistralDebug, UIMessage.errorMistralInvalid] ++ ms, r.map some)
    | _, .ok t => ([], Except.ok (some t))
    | _, .malformed => ([], Except.error "AttributeError")

/-- src/components/ai_providers.py lines 77-141: generate_transcript.  The
first component collects the streamlit messages in emission order; the second
component is the Python return value (.ok) or a propagated exception (.error).
An uninitialized provider returns None at once; a raised exception inside the
try block reaches the except handler, which falls back to the local stub for
mistral and returns None for every other provider. -/
def generate_transcript (initialized : Bool) (ptype : ProviderType)
    (outcome : ProviderOutcome) (fd : GTFormData) :
    List UIMessage × Except String (Option String) :=
  if !initialized then
    ([UIMessage.errorNotInitialized ptype.name], Except.ok none)
  else
    match generateTryBlock ptype outcome fd with
    | (ms, Except.ok v) => (ms, Except.ok v)
    | (ms, Except.error e) =>
      let msgs := ms ++ [UIMessage.errorGenerate ptype.name e]
      if ptype = .mistral then
        let (ms2, r) := _simulate_transcript fd
        (msgs ++ ms2, r.map some)
      else
        (msgs, Except.ok none)

/-- The numeric generation constraints each provider branch of
generate_transcript passes to its client call (src/components/ai_providers.py
lines 91-128): openai, anthropic and cohere receive max_tokens and
temperature; google's generate_content receives neither; mistral's chat
receives only temperature. -/
structure ProviderRequest where
  maxOutput : Option ℚ
  temperature : Option ℚ
deriving DecidableEq

/-- The constraints sent per provider for a given duration, with
max_tokens = calculate_word_count(duration) * 1.5 computed at line 89. -/
def request_params (ptype : ProviderType) (duration : Nat) : ProviderRequest :=
  let max_tokens : ℚ := (calculate_word_count duration : ℚ) * (3 / 2)
  match ptype with
  | .openai => ⟨some max_tokens, some (7 / 10)⟩
  | .anthropic => ⟨some max_tokens, some (7 / 10)⟩
  | .google => ⟨none, none⟩
  | .cohere => ⟨some max_tokens, some (7 / 10)⟩
  | .mistral => ⟨none, some (7 / 10)⟩

/-- Python truthiness of an Except result: a propagated exception is not a
value at all; used to state that a call never raises. -/
def exceptIsOk {ε α : Type} : Except ε α → Bool
  | Except.ok _ => true
  | Except.error _ => false

/-- The form_data dict assembled by render_form (src/app.py lines 290-304);
render_form always sets every key, so all fields are present. -/
structure FormData where
  num_participants : Nat
  male_count : Nat
  female_count : Nat
  non_binary_count : Nat
  age_range : String
  demographics : String
  topic : String
  objective : String
  duration : Nat
  location : String
  discussion_type : String
  languages : List String
deriving DecidableEq

/-- The form_data keys handed to generate_transcript, all present. -/
def gtFormOf (fd : FormData) : GTFormData :=
  ⟨some fd.duration, some fd.topic⟩

/-- src/components/transcript_generator.py lines 310-333:
_clean_transcript_formatting strips every line; the classification branches
(timestamp line, speaker line, regular content) all append the stripped line
unchanged, so the function is a per-line strip. -/
def _clean_transcript_formatting (transcript : String) : String :=
  joinLines ((splitLines transcript).map (fun line => pyStrip line))

/-- The speaker markers tested at src/components/transcript_generator.py
line 347 (note: no PARTICIPANT entry, unlike _clean_transcript_formatting). -/
def speakerMarkers : List String :=
  ["MODERATOR", "P1", "P2", "P3", "P4", "P5", "P6", "P7", "P8"]

/-- Line 344 guard: the line already carries a timestamp — stripped line
starts with a bracket, the line has a closing bracket and some digit. -/
def hasTimestampAlready (line : String) : Bool :=
  startsWithB "[" (pyStrip line) && line.data.contains ']' &&
    line.data.any Char.isDigit

/-- Line 347 guard: the line has a colon and an upper-cased speaker marker. -/
def isSpeakerLine (line : String) : Bool :=
  line.data.contains ':' && speakerMarkers.any (fun m => pyIn m (strToUpper line))

/-- The loop of _add_timestamps (lines 343-358), carrying the accumulated
output lines and current_time.  A speaker line is stamped when current_time
is zero or fewer bracket-starting output lines exist than
current_time / time_increment. -/
def addTimestampsGo (time_increment : Nat) :
    List String → List String → Nat → List String
  | [], acc, _ => acc
  | line :: rest, acc, current_time =>
    if hasTimestampAlready line then
      addTimestampsGo time_increment rest (acc ++ [line]) current_time
    else if isSpeakerLine line then
      if current_time = 0 ∨
          (acc.filter (fun l => startsWithB "[" l)).length
            < current_time / time_increment then
        let stamp := "[" ++ pad2 (current_time / 60) ++ ":" ++
          pad2 (current_time % 60) ++ "] "
        addTimestampsGo time_increment rest (acc ++ [stamp ++ line])
          (current_time + time_increment)
      else
        addTimestampsGo time_increment rest (acc ++ [line]) current_time
    else
      addTimestampsGo time_increment rest (acc ++ [line]) current_time

/-- src/components/transcript_generator.py lines 335-360: _add_timestamps,
with time_increment = max(1, duration // 20). -/
def _add_timestamps (transcript : String) (duration : Nat) : String :=
  joinLines (addTimestampsGo (max 1 (duration / 20)) (splitLines transcript) [] 0)

/-- The note text appended by _adjust_word_count (lines 372 and 374); longer
selects the longer-than-expected wording. -/
def wordCountNote (longer : Bool) (actual expected : Nat) : String :=
  "\n\n[Note: Transcript may be " ++
  (if longer then "longer" else "shorter") ++
  " than expected. Actual words: ~" ++ commaFormat actual ++
  ", Expected: ~" ++ commaFormat expected ++ "]"

/-- src/components/transcript_generator.py lines 362-376: _adjust_word_count.
The Python float ratio is modelled as an exact rational; the guard sets the
ratio to 1 when expected_words is zero. -/
def _adjust_word_count (transcript : String) (fd : FormData) : String :=
  let expected_words := calculate_word_count fd.duration
  let actual_words := countWords transcript
  let word_quotient : ℚ :=
    if expected_words > 0 then (actual_words : ℚ) / (expected_words : ℚ) else 1
  if word_quotient < 4 / 5 then
    transcript ++ wordCountNote false actual_words expected_words
  else if word_quotient > 6 / 5 then
    transcript ++ wordCountNote true actual_words expected_words
  else
    transcript

/-- src/components/transcript_generator.py lines 278-308:
_generate_transcript_header; datetime.now() is passed in as current_date. -/
def _generate_transcript_header (fd : FormData) (current_date : String) : String :=
  let estimated_words := calculate_word_count fd.duration
  "FOCUS GROUP DISCUSSION TRANSCRIPT\n\nStudy Information:\n- Topic: " ++
  fd.topic ++ "\n- Date: " ++ current_date ++ "\n- Duration: " ++
  toString fd.duration ++ " minutes\n- Location: " ++ fd.location ++
  "\n- Type: " ++ strToUpper fd.discussion_type ++ "\n- Languages: " ++
  String.intercalate ", " fd.languages ++
  "\n\nParticipant Demographics:\n- Total Participants: " ++
  toString fd.num_participants ++ "\n- Gender Distribution: " ++
  toString fd.male_count ++ "M, " ++ toString fd.female_count ++ "F, " ++
  toString fd.non_binary_count ++ "NB\n- Age Range: " ++ fd.age_range ++
  "\n- Profile: " ++ fd.demographics ++ "\n\nStudy Objective:\n" ++
  fd.objective ++ "\n\nExpected Word Count: ~" ++
  commaFormat estimated_words ++
  " words\nTranscript Status: Generated using AI simulation\n\n" ++
  String.mk (List.replicate 80 '=')

/-- src/components/transcript_generator.py lines 261-276:
_post_process_transcript chains header, cleaning, timestamps, word count. -/
def _post_process_transcript (transcript : String) (fd : FormData)
    (current_date : String) : String :=
  _generate_transcript_header fd current_date ++ "\n\n" ++
  _adjust_word_count (_add_timestamps (_clean_transcript_formatting transcript)
    fd.duration) fd

/-- Outcome of pressing the generate button in render_form (src/app.py lines
314-323): either an error message is shown and the step stays at the form, or
the app advances to the prompt step. -/
inductive SubmitResult where
  | blocked (msg : String)
  | advance
deriving DecidableEq

/-- src/app.py lines 310-323: the validation gate of the generate button.
required_fields = [topic, objective, location] with Python truthiness of
strings; total_gender is recomputed from the three counts (line 220). -/
def render_form_submit (fd : FormData) (api_key_configured : Bool) : SubmitResult :=
  if fd.topic = "" ∨ fd.objective = "" ∨ fd.location = "" then
    SubmitResult.blocked
      "Please fill in all required fields: Topic, Objective, and Location"
  else if !api_key_configured then
    SubmitResult.blocked "Please configure your AI provider and API key"
  else if fd.male_count + fd.female_count + fd.non_binary_count ≠ fd.num_participants then
    SubmitResult.blocked "Gender counts don't match total participants"
  else
    SubmitResult.advance

/-- Result of one run of generate_full_transcript: whether the provider
generation call was reached, and the returned transcript or the propagated
exception. -/
structure PipelineRun where
  provider_called : Bool
  result : Except String String

/-- src/components/transcript_generator.py lines 21-49: generate_full_transcript.
Initialization failure raises at once without calling the provider; otherwise
the provider generation call is made and a falsy result (None or the empty
string) raises the generic failure message; no configuration validation is
performed anywhere in this function. -/
def generate_full_transcript (init_success : Bool) (ptype : ProviderType)
    (outcome : ProviderOutcome) (fd : FormData) (current_date : String) :
    PipelineRun :=
  if !init_success then
    ⟨false, Except.error ("Failed to initialize " ++ ptype.name)⟩
  else
    match (generate_transcript true ptype outcome (gtFormOf fd)).2 with
    | Except.error e => ⟨true, Except.error e⟩
    | Except.ok none => ⟨true, Except.error "Failed to generate transcript"⟩
    | Except.ok (some t) =>
      if t = "" then ⟨true, Except.error "Failed to generate transcript"⟩
      else ⟨true, Except.ok (_post_process_transcript t fd current_date)⟩

/-- The eight boolean probes of validate_transcript_quality
(src/components/transcript_generator.py lines 381-390), in source order. -/
structure QualityChecks where
  has_moderator : Bool
  has_participants : Bool
  has_timestamps : Bool
  has_opening : Bool
  has_closing : Bool
  appropriate_length : Bool
  natural_flow : Bool
  cultural_references : Bool
deriving DecidableEq

/-- Python sum(quality_checks.values()): the number of passed probes. -/
def countPassed (c : QualityChecks) : Nat :=
  (if c.has_moderator then 1 else 0) + (if c.has_participants then 1 else 0) +
  (if c.has_timestamps then 1 else 0) + (if c.has_opening then 1 else 0) +
  (if c.has_closing then 1 else 0) + (if c.appropriate_length then 1 else 0) +
  (if c.natural_flow then 1 else 0) + (if c.cultural_references then 1 else 0)

/-- src/components/transcript_generator.py lines 446-475:
_get_quality_recommendations, one fixed string per failing probe. -/
def _get_quality_recommendations (c : QualityChecks) : List String :=
  (if !c.has_moderator then ["Add moderator dialogue to guide the discussion"] else []) ++
  (if !c.has_participants then ["Include more participant responses and interactions"] else []) ++
  (if !c.has_timestamps then ["Add timestamps to show discussion progression"] else []) ++
  (if !c.has_opening then ["Include a proper opening with introductions and ground rules"] else []) ++
  (if !c.has_closing then ["Add a closing section with summary and thanks"] else []) ++
  (if !c.appropriate_length then ["Adjust transcript length to match expected duration"] else []) ++
  (if !c.natural_flow then ["Add more natural speech patterns and hesitations"] else []) ++
  (if !c.cultural_references then ["Include more location-specific cultural references"] else [])

/-- Keyword tables of validate_transcript_quality (lines 410-426). -/
def openingKeywords : List String :=
  ["welcome", "introduction", "begin", "start", "good morning", "good evening"]

/-- Closing keywords (line 411). -/
def closingKeywords : List String :=
  ["thank you", "conclude", "wrap up", "final thoughts", "end"]

/-- Natural-flow indicators (line 420). -/
def naturalIndicators : List String :=
  ["umm", "uh", "you know", "like", "actually", "i think", "well"]

/-- India-specific cultural words (line 426). -/
def culturalWords : List String :=
  ["yaar", "na", "arre", "bas", "tension", "time pass"]

/-- Python s[-n:]: the last n characters (the whole string when shorter). -/
def lastChars (n : Nat) (s : String) : String :=
  String.mk (s.data.drop (s.data.length - n))

/-- The checks computed by validate_transcript_quality
(src/components/transcript_generator.py lines 392-429).  The Python float
comparison of line 417 is modelled as an exact rational comparison; Python
raises ZeroDivisionError there when expected_words is zero, which the form
bounds on duration (15-180 minutes) rule out. -/
def computeQualityChecks (transcript : String) (fd : FormData) : QualityChecks :=
  let lines := splitLines transcript
  let word_count := countWords transcript
  let expected_words := calculate_word_count fd.duration
  let transcript_lower := strToLower transcript
  { has_moderator :=
      (lines.filter (fun l => pyIn "MODERATOR" (strToUpper l))).length > 0
    has_participants :=
      (lines.filter (fun l =>
        ["P1", "P2", "P3", "PARTICIPANT"].any
          (fun p => pyIn p (strToUpper l)))).length > 0
    has_timestamps :=
      (lines.filter (fun l =>
        startsWithB "[" (pyStrip l) && l.data.contains ']' &&
          l.data.any Char.isDigit)).length > 2
    has_opening :=
      openingKeywords.any (fun k => pyIn k (strTake 500 transcript_lower))
    has_closing :=
      closingKeywords.any (fun k => pyIn k (lastChars 500 transcript_lower))
    appropriate_length :=
      decide ((7 / 10 : ℚ) ≤ (word_count : ℚ) / (expected_words : ℚ) ∧
        (word_count : ℚ) / (expected_words : ℚ) ≤ 13 / 10)
    natural_flow :=
      naturalIndicators.any (fun k => pyIn k transcript_lower)
    cultural_references :=
      if pyIn "india" (strToLower fd.location) ||
          pyIn "mumbai" (strToLower fd.location) ||
          pyIn "delhi" (strToLower fd.location) then
        culturalWords.any (fun w => pyIn w transcript_lower)
      else
        true }

/-- The dict returned by validate_transcript_quality (lines 436-444). -/
structure QualityReport where
  quality_score : ℚ
  passed_checks : Nat
  total_checks : Nat
  checks : QualityChecks
  word_count : Nat
  expected_words : Nat
  recommendations : List String
deriving DecidableEq

/-- src/components/transcript_generator.py lines 378-444:
validate_transcript_quality. -/
def validate_transcript_quality (transcript : String) (fd : FormData) :
    QualityReport :=
  let checks := computeQualityChecks transcript fd
  let passed_checks := countPassed checks
  { quality_score := (passed_checks : ℚ) / 8
    passed_checks := passed_checks
    total_checks := 8
    checks := checks
    word_count := countWords transcript
    expected_words := calculate_word_count fd.duration
    recommendations := _get_quality_recommendations checks }

/-- C1: the provider recommendation is a deterministic precedence rule: any
language list containing Hindi or Hinglish yields the Indic-optimized
provider google; the list that is exactly the single language French yields
the French-optimized provider mistral; every other list (in particular
[French, English]) yields the default provider openai.  Determinism is
immediate since get_recommended_provider is a function. -/
theorem C1_recommend_precedence (langs : List String) :
    (("Hindi" ∈ langs ∨ "Hinglish" ∈ langs) →
        get_recommended_provider langs = "google") ∧
    (langs = ["French"] → get_recommended_provider langs = "mistral") ∧
    (("Hindi" ∉ langs ∧ "Hinglish" ∉ langs ∧ langs ≠ ["French"]) →
        get_recommended_provider langs = "openai") := by
  refine ⟨?_, ?_, ?_⟩
  · intro h
    rcases h with h | h <;> simp [get_recommended_provider, h]
  · intro h
    subst h
    rfl
  · rintro ⟨h1, h2, h3⟩
    have hno : ¬(langs.length = 1 ∧ "French" ∈ langs) := by
      rintro ⟨hl, hm⟩
      obtain ⟨x, rfl⟩ := List.length_eq_one.mp hl
      have hx : "French" = x := by simpa using hm
      subst hx
      exact h3 rfl
    simp [get_recommended_provider, h1, h2, hno]

/-- Witness for C1 at concrete inputs. -/
theorem C1_recommend_precedence_witness :
    get_recommended_provider ["Hindi", "English"] = "google" ∧
    get_recommended_provider ["French"] = "mistral" ∧
    get_recommended_provider ["French", "English"] = "openai" :=
  ⟨(C1_recommend_precedence ["Hindi", "English"]).1 (Or.inl (by decide)),
   (C1_recommend_precedence ["French"]).2.1 rfl,
   (C1_recommend_precedence ["French", "English"]).2.2 (by decide)⟩

/-- The data of an appended string is the appended data. -/
theorem dataAppend (a b : String) : (a ++ b).data = a.data ++ b.data := by
  obtain ⟨xs⟩ := a
  obtain ⟨ys⟩ := b
  rfl

/-- Length of an appended string. -/
theorem lengthAppend (a b : String) : (a ++ b).length = a.length + b.length := by
  obtain ⟨xs⟩ := a
  obtain ⟨ys⟩ := b
  show (xs ++ ys).length = xs.length + ys.length
  exact List.length_append xs ys

/-- Appending a nonempty string on the right changes the string. -/
theorem append_right_ne_self (t s : String) (h : 0 < s.length) : t ++ s ≠ t := by
  intro he
  have hl := congrArg String.length he
  rw [lengthAppend] at hl
  omega

/-- A string with a nonempty right append factor is nonempty. -/
theorem append_ne_empty_of_right (s r : String) (h : 0 < r.length) : s ++ r ≠ "" := by
  intro he
  have hl := congrArg String.length he
  rw [lengthAppend] at hl
  have h0 : ("" : String).length = 0 := rfl
  rw [h0] at hl
  omega

/-- The local fallback stub text is never empty. -/
theorem simulate_text_ne_empty (t : String) (d : Nat) : simulate_text t d ≠ "" := by
  unfold simulate_text
  exact append_ne_empty_of_right _ _ (by decide)

/-- The word-count annotation text is never empty. -/
theorem wordCountNote_length_pos (longer : Bool) (a e : Nat) :
    0 < (wordCountNote longer a e).length := by
  unfold wordCountNote
  rw [lengthAppend]
  have h1 : ("]" : String).length = 1 := rfl
  omega

/-- splitLinesGo always returns at least one line. -/
theorem splitLinesGo_ne_nil (cs cur : List Char) : splitLinesGo cs cur ≠ [] := by
  induction cs generalizing cur with
  | nil => simp [splitLinesGo]
  | cons c cs ih =>
    rw [splitLinesGo]
    by_cases hc : c = '\n'
    · simp [hc]
    · simp [hc, ih]

/-- joinLines on a cons with a nonempty tail. -/
theorem joinLines_cons (l : String) (ls : List String) (h : ls ≠ []) :
    joinLines (l :: ls) = l ++ "\n" ++ joinLines ls := by
  match ls, h with
  | x :: xs, _ => rfl

/-- String.mk distributes over list append. -/
theorem mkAppend (a b : List Char) : String.mk a ++ String.mk b = String.mk (a ++ b) := rfl

/-- joining the lines produced by splitLinesGo restores the scanned text. -/
theorem joinLines_splitLinesGo (cs : List Char) (cur : List Char) :
    joinLines (splitLinesGo cs cur) = String.mk (cur.reverse ++ cs) := by
  induction cs generalizing cur with
  | nil => simp [splitLinesGo, joinLines]
  | cons c cs ih =>
    rw [splitLinesGo]
    by_cases hc : c = '\n'
    · subst hc
      rw [if_pos rfl, joinLines_cons _ _ (splitLinesGo_ne_nil cs []), ih []]
      rw [show ("\n" : String) = String.mk ['\n'] from rfl, mkAppend, mkAppend]
      simp
    · rw [if_neg hc, ih (c :: cur)]
      simp

/-- joinLines is a left inverse of splitLines. -/
theorem joinLines_splitLines (s : String) : joinLines (splitLines s) = s := by
  obtain ⟨data⟩ := s
  rw [splitLines, joinLines_splitLinesGo]
  simp

/-- When every speaker line in the input already carries a timestamp, the
_add_timestamps loop copies its input unchanged. -/
theorem addTimestampsGo_all_stamped (ti : Nat) (ls : List String)
    (acc : List String) (ct : Nat)
    (h : ∀ l ∈ ls, isSpeakerLine l = true → hasTimestampAlready l = true) :
    addTimestampsGo ti ls acc ct = acc ++ ls := by
  induction ls generalizing acc ct with
  | nil => simp [addTimestampsGo]
  | cons l rest ih =>
    have hrest : ∀ l ∈ rest, isSpeakerLine l = true → hasTimestampAlready l = true :=
      fun x hx => h x (List.mem_cons_of_mem _ hx)
    by_cases h1 : hasTimestampAlready l = true
    · rw [addTimestampsGo, if_pos h1, ih _ _ hrest]
      simp
    · have h2 : isSpeakerLine l = false := by
        by_contra hcon
        exact h1 (h l (List.mem_cons_self _ _) (by simpa using hcon))
      rw [addTimestampsGo, if_neg h1, if_neg (by simp [h2]), ih _ _ hrest]
      simp

/-- The number of passed probes is at most eight. -/
theorem countPassed_le_eight (c : QualityChecks) : countPassed c ≤ 8 := by
  obtain ⟨a1, a2, a3, a4, a5, a6, a7, a8⟩ := c
  cases a1 <;> cases a2 <;> cases a3 <;> cases a4 <;> cases a5 <;> cases a6 <;>
    cases a7 <;> cases a8 <;> decide

/-- Each failing probe contributes exactly one recommendation string. -/
theorem recommendations_length_eq (c : QualityChecks) :
    (_get_quality_recommendations c).length = 8 - countPassed c := by
  obtain ⟨a1, a2, a3, a4, a5, a6, a7, a8⟩ := c
  cases a1 <;> cases a2 <;> cases a3 <;> cases a4 <;> cases a5 <;> cases a6 <;>
    cases a7 <;> cases a8 <;> rfl

/-- C2 counterexample: the claim asserts that use of the fallback is
observable by the caller through an explicit response-source flag on the
result.  The value returned to the caller is a bare optional string: a genuine
mistral response whose text happens to equal the stub text and a raised
provider call produce identical return values, so no flag on the result
distinguishes genuine provider output from the local fallback; the fallback is
only inferable from the text content and the UI warning. -/
theorem C2_no_flag_counterexample :
    (generate_transcript true ProviderType.mistral
        (ProviderOutcome.ok (simulate_text "EV" 30)) ⟨some 30, some "EV"⟩).2 =
      (generate_transcript true ProviderType.mistral
        (ProviderOutcome.raises "network failure") ⟨some 30, some "EV"⟩).2 := rfl

/-- C2 amended: for the fallback-eligible provider mistral, a raised provider
call or a malformed response makes generate_transcript return the non-empty
local stub text and never propagate an exception; the fallback is signalled
by the stub text and a UI warning, not by a flag on the returned value. -/
theorem C2_mistral_fallback (d : Nat) (t m : String) :
    (generate_transcript true ProviderType.mistral (ProviderOutcome.raises m)
        ⟨some d, some t⟩).2 = Except.ok (some (simulate_text t d)) ∧
    (generate_transcript true ProviderType.mistral ProviderOutcome.malformed
        ⟨some d, some t⟩).2 = Except.ok (some (simulate_text t d)) ∧
    simulate_text t d ≠ "" :=
  ⟨rfl, rfl, simulate_text_ne_empty t d⟩

/-- C3: evaluation of _add_timestamps at the failing input.  With duration 60
the claimed cadence is 3 minutes per stamp over every unstamped speaker line
with a non-decreasing stamp sequence; the code instead stamps only the first
unstamped speaker line (always with [00:00]) because the quota test
`count of bracket lines < current_time // time_increment` can never succeed
once a stamp exists, leaving the second speaker line unstamped and producing
the decreasing stamp sequence 05:00, 00:00. -/
theorem C3_failing_input_eval :
    _add_timestamps
        "[05:00] MODERATOR: Welcome everyone\nP1: I like it\nP2: Me too" 60 =
      "[05:00] MODERATOR: Welcome everyone\n[00:00] P1: I like it\nP2: Me too" := rfl

/-- C5 counterexample: a configuration whose gender counts (2+2+1) do not sum
to the participant total (4) is not rejected by the generation pipeline:
generate_full_transcript performs no gender validation, reaches the provider
generation call (provider_called) and returns a transcript; no
ConfigurationError exists in the code. -/
theorem C5_pipeline_no_validation_counterexample :
    (generate_full_transcript true ProviderType.openai
        (ProviderOutcome.ok "MODERATOR: Welcome everyone")
        ⟨4, 2, 2, 1, "25-45", "urban professionals", "Electric Vehicle Adoption",
          "understand adoption", 30, "Mumbai, India", "offline",
          ["Hindi", "English"]⟩ "June 01, 2025").provider_called = true ∧
    exceptIsOk (generate_full_transcript true ProviderType.openai
        (ProviderOutcome.ok "MODERATOR: Welcome everyone")
        ⟨4, 2, 2, 1, "25-45", "urban professionals", "Electric Vehicle Adoption",
          "understand adoption", 30, "Mumbai, India", "offline",
          ["Hindi", "English"]⟩ "June 01, 2025").result = true := ⟨rfl, rfl⟩

/-- C5 amended: the rejection happens in the form layer, not the pipeline:
for every configuration with mismatched gender counts the generate button
handler shows an error and never advances past the form step, so generation
(and with it any network call) is never reached from the form. -/
theorem C5_form_gate (fd : FormData) (api_key_configured : Bool)
    (h : fd.male_count + fd.female_count + fd.non_binary_count ≠ fd.num_participants) :
    render_form_submit fd api_key_configured ≠ SubmitResult.advance := by
  intro hc
  unfold render_form_submit at hc
  by_cases h1 : fd.topic = "" ∨ fd.objective = "" ∨ fd.location = ""
  · rw [if_pos h1] at hc
    exact nomatch hc
  · rw [if_neg h1] at hc
    by_cases h2 : (!api_key_configured) = true
    · rw [if_pos h2] at hc
      exact nomatch hc
    · rw [if_neg h2, if_pos h] at hc
      exact nomatch hc

/-- Witness for C5 amended at a concrete mismatched configuration. -/
theorem C5_form_gate_witness :
    2 + 2 + 1 ≠ 4 ∧
    render_form_submit
        ⟨4, 2, 2, 1, "25-45", "urban", "EV", "obj", 30, "Mumbai", "offline",
          ["English"]⟩ true ≠ SubmitResult.advance :=
  ⟨by decide, C5_form_gate _ true (by decide)⟩

/-- C6 counterexample: the claim asserts every provider receives the
max-output budget expectedWordCount(duration) * 1.5 together with temperature
0.7.  The google branch calls generate_content with the prompt alone, passing
neither parameter. -/
theorem C6_counterexample :
    ¬((request_params ProviderType.google 60).maxOutput =
        some ((calculate_word_count 60 : ℚ) * (3 / 2)) ∧
      (request_params ProviderType.google 60).temperature = some (7 / 10)) := by
  decide

/-- C6 amended: the budget calculate_word_count(duration) * 1.5 and
temperature 0.7 are passed by the openai, anthropic and cohere branches;
google passes neither parameter; mistral passes only temperature 0.7. -/
theorem C6_request_constraints (d : Nat) :
    request_params ProviderType.openai d =
      ⟨some ((calculate_word_count d : ℚ) * (3 / 2)), some (7 / 10)⟩ ∧
    request_params ProviderType.anthropic d =
      ⟨some ((calculate_word_count d : ℚ) * (3 / 2)), some (7 / 10)⟩ ∧
    request_params ProviderType.cohere d =
      ⟨some ((calculate_word_count d : ℚ) * (3 / 2)), some (7 / 10)⟩ ∧
    request_params ProviderType.google d = ⟨none, none⟩ ∧
    request_params ProviderType.mistral d = ⟨none, some (7 / 10)⟩ :=
  ⟨rfl, rfl, rfl, rfl, rfl⟩

/-- C7 counterexample: the claim asserts that for non-fallback providers a
raised provider call returns a GenerationError carrying the provider
identifier and the raw message to the caller.  The value returned to the
caller is None for every non-fallback provider and every message — two
different providers with different raw messages return the identical value —
so the returned value carries neither a provider identifier nor a message. -/
theorem C7_counterexample :
    (generate_transcript true ProviderType.openai
        (ProviderOutcome.raises "Connection refused") ⟨some 60, some "EV"⟩).2 =
      Except.ok none ∧
    (generate_transcript true ProviderType.cohere
        (ProviderOutcome.raises "quota exceeded") ⟨some 60, some "EV"⟩).2 =
      Except.ok none := ⟨rfl, rfl⟩

/-- C7 amended: for every provider other than mistral, a raised provider call
is caught: an error message carrying the provider identifier and the raw
message is emitted to the UI, and the caller receives None — no fallback
text and no structured error value. -/
theorem C7_non_fallback_returns_none (ptype : ProviderType)
    (h : ptype ≠ ProviderType.mistral) (d : Nat) (t m : String) :
    generate_transcript true ptype (ProviderOutcome.raises m) ⟨some d, some t⟩ =
      ([UIMessage.errorGenerate ptype.name m], Except.ok none) := by
  cases ptype <;> first | rfl | exact absurd rfl h

/-- Witness for C7 amended at a concrete provider and message. -/
theorem C7_non_fallback_witness :
    ProviderType.openai ≠ ProviderType.mistral ∧
    generate_transcript true ProviderType.openai
        (ProviderOutcome.raises "Connection refused") ⟨some 60, some "EV"⟩ =
      ([UIMessage.errorGenerate "openai" "Connection refused"], Except.ok none) :=
  ⟨by decide,
   C7_non_fallback_returns_none ProviderType.openai (by decide) 60 "EV"
     "Connection refused"⟩

/-- C4: word-count reconciliation never modifies the transcript content (the
input is always a character-list prefix of the output, never truncated or
padded) and appends the annotation stating both counts exactly when the ratio
actual/expected is strictly outside [0.8, 1.2]; inside the interval the
output equals the input. -/
theorem C4_word_count_reconciliation (t : String) (fd : FormData)
    (h : 0 < fd.duration) :
    t.data <+: (_adjust_word_count t fd).data ∧
    (_adjust_word_count t fd = t ↔
      ((4 / 5 : ℚ) ≤ (countWords t : ℚ) / (calculate_word_count fd.duration : ℚ) ∧
        (countWords t : ℚ) / (calculate_word_count fd.duration : ℚ) ≤ 6 / 5)) ∧
    ((countWords t : ℚ) / (calculate_word_count fd.duration : ℚ) < 4 / 5 →
      _adjust_word_count t fd =
        t ++ wordCountNote false (countWords t) (calculate_word_count fd.duration)) ∧
    ((6 / 5 : ℚ) < (countWords t : ℚ) / (calculate_word_count fd.duration : ℚ) →
      _adjust_word_count t fd =
        t ++ wordCountNote true (countWords t) (calculate_word_count fd.duration)) := by
  have hexp : 0 < calculate_word_count fd.duration := by
    unfold calculate_word_count WORDS_PER_MINUTE
    omega
  have hout : _adjust_word_count t fd =
      if ((countWords t : ℚ) / (calculate_word_count fd.duration : ℚ)) < 4 / 5 then
        t ++ wordCountNote false (countWords t) (calculate_word_count fd.duration)
      else if ((countWords t : ℚ) / (calculate_word_count fd.duration : ℚ)) > 6 / 5 then
        t ++ wordCountNote true (countWords t) (calculate_word_count fd.duration)
      else t := by
    simp only [_adjust_word_count]
    rw [if_pos hexp]
  by_cases h1 : ((countWords t : ℚ) / (calculate_word_count fd.duration : ℚ)) < 4 / 5
  · rw [hout, if_pos h1]
    refine ⟨?_, ?_, fun _ => rfl, ?_⟩
    · rw [dataAppend]
      exact List.prefix_append _ _
    · constructor
      · intro he
        exact absurd he (append_right_ne_self _ _ (wordCountNote_length_pos _ _ _))
      · rintro ⟨hge, _⟩
        exact absurd h1 (not_lt.mpr hge)
    · intro h2
      linarith
  · by_cases h2 : ((countWords t : ℚ) / (calculate_word_count fd.duration : ℚ)) > 6 / 5
    · rw [hout, if_neg h1, if_pos h2]
      refine ⟨?_, ?_, ?_, fun _ => rfl⟩
      · rw [dataAppend]
        exact List.prefix_append _ _
      · constructor
        · intro he
          exact absurd he (append_right_ne_self _ _ (wordCountNote_length_pos _ _ _))
        · rintro ⟨_, hle⟩
          exact absurd h2 (not_lt.mpr hle)
      · intro h3
        linarith
    · rw [hout, if_neg h1, if_neg h2]
      refine ⟨List.prefix_refl _, ?_, ?_, ?_⟩
      · exact ⟨fun _ => ⟨not_lt.mp h1, not_lt.mp h2⟩, fun _ => rfl⟩
      · intro h3
        exact absurd h3 h1
      · intro h3
        exact absurd h3 h2

/-- Witness for C4 at a concrete transcript and configuration. -/
theorem C4_word_count_witness :
    0 < (⟨8, 4, 4, 0, "25-45", "urban", "EV", "obj", 30, "Mumbai", "offline",
        ["English"]⟩ : FormData).duration ∧
    ("short text").data <+:
      (_adjust_word_count "short text"
        ⟨8, 4, 4, 0, "25-45", "urban", "EV", "obj", 30, "Mumbai", "offline",
          ["English"]⟩).data :=
  ⟨by decide,
   (C4_word_count_reconciliation "short text" _ (by decide)).1⟩

/-- C8 counterexample: timestamp repair is not idempotent.  The first pass of
_add_timestamps stamps only the first unstamped speaker line; a second pass
then stamps the next speaker line, changing the transcript again. -/
theorem C8_not_idempotent_counterexample :
    _add_timestamps (_add_timestamps "P1: a\nP2: b" 60) 60 ≠
      _add_timestamps "P1: a\nP2: b" 60 := by
  decide

/-- C8 amended: repairing a transcript in which every speaker line already
carries a digit-bearing timestamp returns it unchanged; full idempotence
fails (see the counterexample) because a second pass stamps the next speaker
line that the first pass left unstamped. -/
theorem C8_stamped_transcript_fixed (transcript : String) (duration : Nat)
    (h : ∀ line ∈ splitLines transcript,
      isSpeakerLine line = true → hasTimestampAlready line = true) :
    _add_timestamps transcript duration = transcript := by
  unfold _add_timestamps
  rw [addTimestampsGo_all_stamped _ _ _ _ h, List.nil_append, joinLines_splitLines]

/-- Witness for C8 amended at a concrete fully timestamped transcript. -/
theorem C8_stamped_transcript_witness :
    (∀ line ∈ splitLines "[00:00] MODERATOR: Hello\n[00:03] P1: Hi there",
      isSpeakerLine line = true → hasTimestampAlready line = true) ∧
    _add_timestamps "[00:00] MODERATOR: Hello\n[00:03] P1: Hi there" 45 =
      "[00:00] MODERATOR: Hello\n[00:03] P1: Hi there" :=
  ⟨by decide, C8_stamped_transcript_fixed _ 45 (by decide)⟩

/-- C9: the quality audit is a pure function of transcript and configuration:
the score equals passed checks divided by 8 and always lies in [0, 1], the
total is 8, each failing probe contributes exactly one fixed recommendation
string so the recommendation list has exactly 8 minus passed entries, and
recomputation on unchanged inputs yields an identical report. -/
theorem C9_quality_audit (transcript : String) (fd : FormData) :
    (validate_transcript_quality transcript fd).quality_score =
      ((validate_transcript_quality transcript fd).passed_checks : ℚ) / 8 ∧
    0 ≤ (validate_transcript_quality transcript fd).quality_score ∧
    (validate_transcript_quality transcript fd).quality_score ≤ 1 ∧
    (validate_transcript_quality transcript fd).total_checks = 8 ∧
    (validate_transcript_quality transcript fd).recommendations.length =
      8 - (validate_transcript_quality transcript fd).passed_checks ∧
    validate_transcript_quality transcript fd =
      validate_transcript_quality transcript fd := by
  refine ⟨rfl, ?_, ?_, rfl, ?_, rfl⟩
  · show (0 : ℚ) ≤ (countPassed (computeQualityChecks transcript fd) : ℚ) / 8
    positivity
  · show ((countPassed (computeQualityChecks transcript fd) : ℚ) / 8) ≤ 1
    rw [div_le_one (by norm_num)]
    exact_mod_cast countPassed_le_eight _
  · show (_get_quality_recommendations (computeQualityChecks transcript fd)).length =
      8 - countPassed (computeQualityChecks transcript fd)
    exact recommendations_length_eq _

/-- C10 counterexample: the claim quantifies over every form_data containing
a duration key.  With form_data = {duration: 30} (no topic key) and an
initialized mistral whose client call raises, the except handler calls
_simulate_transcript, which reads the absent topic key: the KeyError
propagates to the caller instead of being converted. -/
theorem C10_keyerror_counterexample :
    (generate_transcript true ProviderType.mistral (ProviderOutcome.raises "boom")
        ⟨some 30, none⟩).2 = Except.error "KeyError: topic" := rfl

/-- C10 amended: for every form_data containing both the duration and topic
keys, generate_transcript never propagates an exception to its caller: an
uninitialized provider returns None at once, every outcome yields a
non-exceptional return, and a raised client call is converted to the
simulated stub for mistral and to None for all other providers. -/
theorem C10_no_exception_with_keys (ptype : ProviderType)
    (outcome : ProviderOutcome) (fd : GTFormData) (d : Nat) (t m : String) :
    (generate_transcript false ptype outcome fd).2 = Except.ok none ∧
    exceptIsOk (generate_transcript true ptype outcome ⟨some d, some t⟩).2 = true ∧
    (generate_transcript true ptype (ProviderOutcome.raises m) ⟨some d, some t⟩).2 =
      (if ptype = ProviderType.mistral then Except.ok (some (simulate_text t d))
        else Except.ok none) := by
  refine ⟨rfl, ?_, ?_⟩
  · cases ptype <;> cases outcome <;> rfl
  · cases ptype <;> rfl
